import Mathlib

/-!
Shallow embedding of the geepillow layout/compositing engine.

Sizes and coordinates are Python integers, modelled as `ℤ`.  Python float
arithmetic (true division, `int(...)` conversion) is modelled with exact
rational arithmetic; every concrete value evaluated below is a dyadic
rational that Python floats represent exactly.  A Python function that can
raise is modelled as returning `Option` (or `Except` where the error
identity matters), with `none`/`error` standing for the raised exception.
-/

namespace Geepillow

/-- Python `int(x)` applied to a real value truncates toward zero. -/
def pytrunc (q : ℚ) : ℤ := if 0 ≤ q then ⌊q⌋ else ⌈q⌉

/-! ### colors.py -/

/-- Uppercase hex digit characters, as produced by Python `%X` formatting. -/
def hexDigitChar (n : ℕ) : Char :=
  match n with
  | 0 => '0' | 1 => '1' | 2 => '2' | 3 => '3' | 4 => '4'
  | 5 => '5' | 6 => '6' | 7 => '7' | 8 => '8' | 9 => '9'
  | 10 => 'A' | 11 => 'B' | 12 => 'C' | 13 => 'D' | 14 => 'E'
  | _ => 'F'

/-- Python `f"{n:02X}"` for a byte value `0 ≤ n < 256`: two hex digits. -/
def byteHexChars (n : ℕ) : List Char := [hexDigitChar (n / 16), hexDigitChar (n % 16)]

/-- `Color`: the three channel values, each validated to `[0, 255]` at
construction (see `Color.make`). -/
structure Color where
  red : ℕ
  green : ℕ
  blue : ℕ
deriving DecidableEq, Repr

/-- `Color.__init__`: raises `ValueError` unless every channel is in
`[0, 255]`. -/
def Color.make (r g b : ℤ) : Option Color :=
  if r < 0 ∨ 255 < r then none
  else if g < 0 ∨ 255 < g then none
  else if b < 0 ∨ 255 < b then none
  else some ⟨r.toNat, g.toNat, b.toNat⟩

/-- `Color.hex`: raises `ValueError` when `opacity` is outside `[0, 1]`;
otherwise returns `#RRGGBBAA` where the alpha byte is
`int(opacity * 255)` formatted as two uppercase hex digits. -/
def Color.hex (c : Color) (opacity : ℚ) : Option String :=
  if 1 < opacity ∨ opacity < 0 then none
  else
    some (String.mk ('#' :: (byteHexChars c.red ++ byteHexChars c.green
      ++ byteHexChars c.blue ++ byteHexChars (pytrunc (opacity * 255)).toNat)))

/-- Value of one hex digit character, as accepted by Python `int(_, 16)`:
decimal digits, lowercase a-f and uppercase A-F, via their code points. -/
def hexCharVal (ch : Char) : Option ℕ :=
  let n := ch.toNat
  if 48 ≤ n ∧ n ≤ 57 then some (n - 48)
  else if 97 ≤ n ∧ n ≤ 102 then some (n - 87)
  else if 65 ≤ n ∧ n ≤ 70 then some (n - 55)
  else none

/-- Python `int(s, 16)` on a two-character slice. -/
def parseHexPair (a b : Char) : Option ℕ := do
  let x ← hexCharVal a
  let y ← hexCharVal b
  pure (16 * x + y)

/-- `Color.from_hex`: strip leading `#`, keep the first six characters, and
split them into `len // 3`-character chunks parsed base 16.  A six-character
prefix yields three two-digit chunks and a three-character prefix three
one-digit chunks; any other prefix length makes the Python code raise
(`range` step 0, wrong argument count to the constructor, or a failed
`int(_, 16)`), modelled as `none`. -/
def Color.from_hex (s : String) : Option Color :=
  match (s.data.dropWhile (fun ch => ch == '#')).take 6 with
  | [a, b, c, d, e, f] => do
      let red ← parseHexPair a b
      let green ← parseHexPair c d
      let blue ← parseHexPair e f
      Color.make (red : ℤ) (green : ℤ) (blue : ℤ)
  | [a, b, c] => do
      let red ← hexCharVal a
      let green ← hexCharVal b
      let blue ← hexCharVal c
      Color.make (red : ℤ) (green : ℤ) (blue : ℤ)
  | _ => none

/-! ### Basic evaluation lemmas for the colors embedding -/

lemma pytrunc_of_nonneg (q : ℚ) (h : 0 ≤ q) : pytrunc q = ⌊q⌋ := if_pos h

lemma pytrunc_intCast (n : ℤ) : pytrunc (n : ℚ) = n := by
  unfold pytrunc
  split <;> simp

lemma hex_none_of_out (c : Color) (q : ℚ) (h : 1 < q ∨ q < 0) : c.hex q = none := by
  rw [Color.hex, if_pos h]

lemma hex_eq_of_mem (c : Color) (q : ℚ) (h0 : 0 ≤ q) (h1 : q ≤ 1) :
    c.hex q = some (String.mk ('#' :: (byteHexChars c.red ++ byteHexChars c.green
      ++ byteHexChars c.blue ++ byteHexChars (⌊q * 255⌋).toNat))) := by
  rw [Color.hex, if_neg, pytrunc_of_nonneg]
  · positivity
  · push_neg
    exact ⟨h1, h0⟩

lemma hexCharVal_hexDigitChar : ∀ d < 16, hexCharVal (hexDigitChar d) = some d := by decide

lemma hexDigitChar_beq_hash : ∀ d < 16, (hexDigitChar d == '#') = false := by decide

end Geepillow

namespace Geepillow

/-! ### Claims about colors.py -/

/-- Claim C6, counterexample: at opacity 1/2 the code emits alpha byte 7F,
which is `int(0.5 * 255) = 127` truncated, while `round(0.5 * 255) = 128`
would have been emitted as byte 80.  The alpha byte therefore does not equal
`round(opacity * 255)` as claimed. -/
theorem claim6_counterexample :
    Color.hex ⟨255, 255, 255⟩ (1 / 2)
      = some (String.mk ['#', 'F', 'F', 'F', 'F', 'F', 'F', '7', 'F'])
    ∧ byteHexChars (round ((1 / 2 : ℚ) * 255)).toNat = ['8', '0']
    ∧ (['7', 'F'] : List Char) ≠ ['8', '0'] := by
  refine ⟨?_, ?_, by decide⟩
  · rw [hex_eq_of_mem ⟨255, 255, 255⟩ (1 / 2) (by norm_num) (by norm_num)]
    norm_num
    decide
  · have h : round ((1 / 2 : ℚ) * 255) = 128 := by norm_num [round_eq]
    rw [h]
    decide

/-- Claim C6 (amended): for every Color and opacity, hex fails when the
opacity is outside [0,1] (in particular at -0.01 and 1.01), succeeds at
exactly 0.0 and 1.0, and on success returns the 8-hex-digit string #RRGGBBAA
whose alpha byte equals the opacity times 255 truncated to an integer
(floored, not rounded). -/
theorem claim6_amended :
    (∀ (c : Color) (q : ℚ), 1 < q ∨ q < 0 → c.hex q = none)
    ∧ (∀ c : Color, c.hex ((-1) / 100) = none ∧ c.hex (101 / 100) = none
        ∧ (c.hex 0).isSome ∧ (c.hex 1).isSome)
    ∧ (∀ (c : Color) (q : ℚ), 0 ≤ q → q ≤ 1 →
        c.hex q = some (String.mk ('#' :: (byteHexChars c.red ++ byteHexChars c.green
          ++ byteHexChars c.blue ++ byteHexChars (⌊q * 255⌋).toNat))))
    ∧ (∀ (c : Color) (q : ℚ) (s : String), c.hex q = some s → s.length = 9) := by
  refine ⟨fun c q h => hex_none_of_out c q h, ?_, fun c q h0 h1 => hex_eq_of_mem c q h0 h1, ?_⟩
  · intro c
    refine ⟨hex_none_of_out c _ (by norm_num), hex_none_of_out c _ (by norm_num), ?_, ?_⟩
    · rw [hex_eq_of_mem c 0 (by norm_num) (by norm_num)]
      rfl
    · rw [hex_eq_of_mem c 1 (by norm_num) (by norm_num)]
      rfl
  · intro c q s h
    rw [Color.hex] at h
    split at h
    · simp at h
    · rw [Option.some_inj] at h
      subst h
      simp [String.length, byteHexChars]

/-- Claim C6, witness: the amended statement instantiated at the black color
and opacity 1/2, giving alpha byte 7F. -/
theorem claim6_witness :
    Color.hex ⟨0, 0, 0⟩ (1 / 2)
      = some (String.mk ['#', '0', '0', '0', '0', '0', '0', '7', 'F']) := by
  have h := claim6_amended.2.2.1 ⟨0, 0, 0⟩ (1 / 2) (by norm_num) (by norm_num)
  rw [h]
  norm_num
  decide

/-- Claim C9: for every triple (r, g, b) with each component in [0, 255],
the hex serialization at opacity 1.0 ends in FF, and parsing it back with
from_hex recovers the same channel values. -/
theorem claim9_roundtrip : ∀ r g b : ℕ, r ≤ 255 → g ≤ 255 → b ≤ 255 →
    ∃ l : List Char,
      Color.hex ⟨r, g, b⟩ 1 = some (String.mk (l ++ ['F', 'F']))
      ∧ Color.from_hex (String.mk (l ++ ['F', 'F'])) = some ⟨r, g, b⟩ := by
  intro r g b hr hg hb
  have dr1 : r / 16 < 16 := by omega
  have dr2 : r % 16 < 16 := by omega
  have dg1 : g / 16 < 16 := by omega
  have dg2 : g % 16 < 16 := by omega
  have db1 : b / 16 < 16 := by omega
  have db2 : b % 16 < 16 := by omega
  refine ⟨'#' :: (byteHexChars r ++ byteHexChars g ++ byteHexChars b), ?_, ?_⟩
  · rw [hex_eq_of_mem _ 1 (by norm_num) (le_refl 1)]
    norm_num
    have h15 : hexDigitChar 15 = 'F' := rfl
    simp [byteHexChars, List.append_assoc, h15]
  · rw [Color.from_hex]
    simp only [byteHexChars, List.cons_append, List.append_assoc, List.nil_append,
      List.dropWhile]
    rw [show (('#' == '#') : Bool) = true from rfl]
    simp only [hexDigitChar_beq_hash _ dr1, Bool.false_eq_true, if_false, if_true]
    simp only [List.take, parseHexPair, hexCharVal_hexDigitChar _ dr1,
      hexCharVal_hexDigitChar _ dr2, hexCharVal_hexDigitChar _ dg1,
      hexCharVal_hexDigitChar _ dg2, hexCharVal_hexDigitChar _ db1,
      hexCharVal_hexDigitChar _ db2, Option.bind_some, Option.some_bind, bind,
      Option.bind_eq_bind]
    have er : 16 * (r / 16) + r % 16 = r := by omega
    have eg : 16 * (g / 16) + g % 16 = g := by omega
    have eb : 16 * (b / 16) + b % 16 = b := by omega
    rw [er, eg, eb]
    unfold Color.make
    simp only [Option.pure_def, Option.some_bind]
    have h1 : ¬((r : ℤ) < 0 ∨ 255 < (r : ℤ)) := by omega
    rw [if_neg h1]
    have h2 : ¬((g : ℤ) < 0 ∨ 255 < (g : ℤ)) := by omega
    rw [if_neg h2]
    have h3 : ¬((b : ℤ) < 0 ∨ 255 < (b : ℤ)) := by omega
    rw [if_neg h3]
    simp

/-- Claim C9, witness: the round trip instantiated at (1, 2, 3). -/
theorem claim9_witness :
    ∃ l : List Char,
      Color.hex ⟨1, 2, 3⟩ 1 = some (String.mk (l ++ ['F', 'F']))
      ∧ Color.from_hex (String.mk (l ++ ['F', 'F'])) = some ⟨1, 2, 3⟩ :=
  claim9_roundtrip 1 2 3 (by norm_num) (by norm_num) (by norm_num)

end Geepillow

namespace Geepillow

/-! ### blocks.py: Block

The basic Block stores the size tuple `_size` together with separate
`_width` and `_height` fields; the three setters below mirror the three
property setters of the source. -/

/-- Stored geometry of a basic Block. -/
structure BlockState where
  size : ℤ × ℤ
  width : ℤ
  height : ℤ
deriving DecidableEq, Repr

/-- `Block.__init__`: stores the size tuple and both of its components. -/
def Block.init (size : ℤ × ℤ) : BlockState := ⟨size, size.1, size.2⟩

/-- The `size` setter: assigns the tuple and refreshes width and height. -/
def Block.setSize (b : BlockState) (s : ℤ × ℤ) : BlockState := ⟨s, s.1, s.2⟩

/-- The `width` setter: assigns `_width` and writes the new width into
slot 0 of the size tuple. -/
def Block.setWidth (b : BlockState) (w : ℤ) : BlockState :=
  { b with width := w, size := (w, b.size.2) }

/-- The `height` setter: assigns `_height` and then writes the new height
into slot 0 of the size tuple — the source performs `size[0] = height`. -/
def Block.setHeight (b : BlockState) (h : ℤ) : BlockState :=
  { b with height := h, size := (h, b.size.2) }

/-! ### blocks.py: ImageBlock -/

/-- The `position` attribute: either one of the nine anchor names or an
explicit pair of coordinates (the source distinguishes them with
`isinstance(self.position, str)`). -/
inductive Position where
  | anchor (name : String)
  | coords (p : ℤ × ℤ)
deriving DecidableEq, Repr

/-- The state read by the ImageBlock geometry computations: the size
(width, height) of the stored source raster `_image`, the block size
(whose components are also the width and height stored on the underlying
Block at construction), and the placement policy. -/
structure ImageBlockState where
  image : ℤ × ℤ
  size : ℤ × ℤ
  position : Position
  fit_block : Bool
  keep_proportion : Bool
deriving DecidableEq, Repr

/-- The dictionary of anchor offsets built inside `ImageBlock.xy` from
`x_space = width - image.width` and `y_space = height - image.height`;
the halved entries are Python float divisions. -/
def anchorTable (xs ys : ℚ) : List (String × (ℚ × ℚ)) :=
  [("top-left", (0, 0)), ("top-center", (xs / 2, 0)), ("top-right", (xs, 0)),
   ("center-left", (0, ys / 2)), ("center-center", (xs / 2, ys / 2)),
   ("center-right", (xs, ys / 2)), ("bottom-left", (0, ys)),
   ("bottom-center", (xs / 2, ys)), ("bottom-right", (xs, ys))]

/-- `ImageBlock.xy`: for a named anchor, look the name up in the offset
dictionary and convert both offsets with `int(...)`; an unknown name
raises `KeyError`, modelled as `none`.  An explicit pair is returned
verbatim. -/
def ImageBlock.xy (b : ImageBlockState) : Option (ℤ × ℤ) :=
  let xs : ℚ := ((b.size.1 - b.image.1 : ℤ) : ℚ)
  let ys : ℚ := ((b.size.2 - b.image.2 : ℤ) : ℚ)
  match b.position with
  | .anchor s =>
    match (anchorTable xs ys).lookup s with
    | some p => some (pytrunc p.1, pytrunc p.2)
    | none => none
  | .coords p => some p

/-- Size of the raster produced by the `ImageBlock.element` property:
starting from the source raster, resize once when `posx + width` exceeds
the block width and once more when, after that, `posy + height` exceeds
the block height.  With `keep_proportion` the other dimension follows
`proportion = Sw / Sh` with `int(...)` truncation; without it, each resize
target reuses the original source dimension on the untouched axis. -/
def ImageBlock.element (b : ImageBlockState) : Option (ℤ × ℤ) := do
  let el := b.image
  let pos ← ImageBlock.xy b
  let is_widther := b.size.1 < pos.1 + el.1
  let is_heigher := b.size.2 < pos.2 + el.2
  if b.fit_block then
    if ¬ b.keep_proportion then
      let el1 := if is_widther then (b.size.1 - pos.1, el.2) else el
      let el2 := if is_heigher then (el.1, b.size.2 - pos.2) else el1
      pure el2
    else
      let proportion : ℚ := (el.1 : ℚ) / (el.2 : ℚ)
      let el1 := if is_widther then
          (b.size.1 - pos.1, pytrunc (((b.size.1 - pos.1 : ℤ) : ℚ) / proportion))
        else el
      let el2 := if b.size.2 < pos.2 + el1.2 then
          (pytrunc (((b.size.2 - pos.2 : ℤ) : ℚ) * proportion), b.size.2 - pos.2)
        else el1
      pure el2
  else
    pure el

/-- The nine recognized anchor names (keys of the offset dictionary). -/
def anchorNames : List String :=
  ["top-left", "top-center", "top-right", "center-left", "center-center",
   "center-right", "bottom-left", "bottom-center", "bottom-right"]

/-! ### Evaluation lemmas for xy and element -/

lemma pytrunc_eq_of_intCast (q : ℚ) (n : ℤ) (h : q = (n : ℚ)) : pytrunc q = n := by
  rw [h, pytrunc_intCast]

lemma pytrunc_intCast_sub (a b : ℤ) : pytrunc ((a : ℚ) - (b : ℚ)) = a - b := by
  rw [← Int.cast_sub, pytrunc_intCast]

lemma pytrunc_zero : pytrunc 0 = 0 := by simp [pytrunc]

lemma xy_coords (b : ImageBlockState) (p : ℤ × ℤ) (h : b.position = Position.coords p) :
    ImageBlock.xy b = some p := by
  simp [ImageBlock.xy, h]

lemma xy_unknown_anchor (b : ImageBlockState) (s : String)
    (h : b.position = Position.anchor s) (hs : s ∉ anchorNames) :
    ImageBlock.xy b = none := by
  simp only [anchorNames, List.mem_cons, List.mem_singleton, not_or] at hs
  obtain ⟨h1, h2, h3, h4, h5, h6, h7, h8, h9, -⟩ := hs
  have e1 : (s == "top-left") = false := beq_eq_false_iff_ne.mpr h1
  have e2 : (s == "top-center") = false := beq_eq_false_iff_ne.mpr h2
  have e3 : (s == "top-right") = false := beq_eq_false_iff_ne.mpr h3
  have e4 : (s == "center-left") = false := beq_eq_false_iff_ne.mpr h4
  have e5 : (s == "center-center") = false := beq_eq_false_iff_ne.mpr h5
  have e6 : (s == "center-right") = false := beq_eq_false_iff_ne.mpr h6
  have e7 : (s == "bottom-left") = false := beq_eq_false_iff_ne.mpr h7
  have e8 : (s == "bottom-center") = false := beq_eq_false_iff_ne.mpr h8
  have e9 : (s == "bottom-right") = false := beq_eq_false_iff_ne.mpr h9
  simp [ImageBlock.xy, h, anchorTable, List.lookup, e1, e2, e3, e4, e5, e6, e7, e8, e9]

lemma xy_top_left (b : ImageBlockState) (h : b.position = Position.anchor "top-left") :
    ImageBlock.xy b = some (0, 0) := by
  simp [ImageBlock.xy, h, anchorTable, List.lookup, pytrunc_zero]

lemma xy_top_center (b : ImageBlockState) (h : b.position = Position.anchor "top-center") :
    ImageBlock.xy b = some (pytrunc (((b.size.1 - b.image.1 : ℤ) : ℚ) / 2), 0) := by
  simp [ImageBlock.xy, h, anchorTable, List.lookup, pytrunc_zero]

lemma xy_top_right (b : ImageBlockState) (h : b.position = Position.anchor "top-right") :
    ImageBlock.xy b = some (b.size.1 - b.image.1, 0) := by
  simp [ImageBlock.xy, h, anchorTable, List.lookup, pytrunc_zero, pytrunc_intCast_sub]

lemma xy_center_left (b : ImageBlockState) (h : b.position = Position.anchor "center-left") :
    ImageBlock.xy b = some (0, pytrunc (((b.size.2 - b.image.2 : ℤ) : ℚ) / 2)) := by
  simp [ImageBlock.xy, h, anchorTable, List.lookup, pytrunc_zero]

lemma xy_center_center (b : ImageBlockState)
    (h : b.position = Position.anchor "center-center") :
    ImageBlock.xy b = some (pytrunc (((b.size.1 - b.image.1 : ℤ) : ℚ) / 2),
      pytrunc (((b.size.2 - b.image.2 : ℤ) : ℚ) / 2)) := by
  simp [ImageBlock.xy, h, anchorTable, List.lookup]

lemma xy_center_right (b : ImageBlockState) (h : b.position = Position.anchor "center-right") :
    ImageBlock.xy b = some (b.size.1 - b.image.1,
      pytrunc (((b.size.2 - b.image.2 : ℤ) : ℚ) / 2)) := by
  simp [ImageBlock.xy, h, anchorTable, List.lookup, pytrunc_intCast_sub]

lemma xy_bottom_left (b : ImageBlockState) (h : b.position = Position.anchor "bottom-left") :
    ImageBlock.xy b = some (0, b.size.2 - b.image.2) := by
  simp [ImageBlock.xy, h, anchorTable, List.lookup, pytrunc_zero, pytrunc_intCast_sub]

lemma xy_bottom_center (b : ImageBlockState)
    (h : b.position = Position.anchor "bottom-center") :
    ImageBlock.xy b = some (pytrunc (((b.size.1 - b.image.1 : ℤ) : ℚ) / 2),
      b.size.2 - b.image.2) := by
  simp [ImageBlock.xy, h, anchorTable, List.lookup, pytrunc_intCast_sub]

lemma xy_bottom_right (b : ImageBlockState) (h : b.position = Position.anchor "bottom-right") :
    ImageBlock.xy b = some (b.size.1 - b.image.1, b.size.2 - b.image.2) := by
  simp [ImageBlock.xy, h, anchorTable, List.lookup, pytrunc_intCast_sub]

/-- An oversized source centered in a smaller block: a 1000 by 500 raster
in a 500 by 500 block with the default position and fit policy. -/
def overflowConfig : ImageBlockState :=
  ⟨(1000, 500), (500, 500), Position.anchor "center-center", true, true⟩

lemma overflow_xy : ImageBlock.xy overflowConfig = some (-250, 0) := by
  rw [xy_center_center overflowConfig rfl]
  rw [pytrunc_eq_of_intCast _ (-250) (by norm_num [overflowConfig]),
    pytrunc_eq_of_intCast _ 0 (by norm_num [overflowConfig])]

lemma overflow_element : ImageBlock.element overflowConfig = some (750, 375) := by
  unfold ImageBlock.element
  rw [overflow_xy]
  simp only [overflowConfig, Option.some_bind]
  norm_num
  rw [pytrunc_eq_of_intCast _ 375 (by norm_num)]
  norm_num

/-! ### Claims about blocks.py geometry -/

/-- Claim C1: for a 1000 by 500 source in a 500 by 500 block with
`fit_block` and `keep_proportion` at the default center-center position,
the code computes an element of size (750, 375) — the resize target is
`block_width - posx` with `posx = -250` — and not the contain-fit size
(500, 250) stated by the claim. -/
theorem claim1_element_not_contain_fit :
    ImageBlock.element overflowConfig = some (750, 375)
    ∧ ((750 : ℤ), (375 : ℤ)) ≠ ((500 : ℤ), (250 : ℤ)) :=
  ⟨overflow_element, by decide⟩

/-- Claim C2: at the same configuration the element width 750 exceeds the
block width 500 even though `fit_block` is set, contradicting the bound
stated by the claim (and by the source docstring). -/
theorem claim2_element_bound_violated :
    overflowConfig.fit_block = true
    ∧ ImageBlock.element overflowConfig = some (750, 375)
    ∧ overflowConfig.size.1 < 750 :=
  ⟨rfl, overflow_element, by decide⟩

/-- Claim C3, counterexample: when the fit logic resizes the source, xy is
not computed from the resized element.  At `overflowConfig` the element is
750 by 375, so an element-based center-center xy would be
(int((500 - 750) / 2), int((500 - 375) / 2)) = (-125, 62), but the code
returns (-250, 0), computed from the 1000 by 500 source raster. -/
theorem claim3_counterexample :
    ImageBlock.xy overflowConfig = some (-250, 0)
    ∧ ImageBlock.element overflowConfig = some (750, 375)
    ∧ pytrunc (((500 - 750 : ℤ) : ℚ) / 2) = -125
    ∧ ((-250 : ℤ), (0 : ℤ)) ≠ (-125, pytrunc (((500 - 375 : ℤ) : ℚ) / 2)) := by
  refine ⟨overflow_xy, overflow_element, ?_, ?_⟩
  · have h : ((500 - 750 : ℤ) : ℚ) / 2 = ((-125 : ℤ) : ℚ) := by norm_num
    rw [h, pytrunc_intCast]
  · have h : pytrunc (((500 - 375 : ℤ) : ℚ) / 2) = 62 := by
      have h2 : ((500 - 375 : ℤ) : ℚ) / 2 = 125 / 2 := by norm_num
      rw [h2, pytrunc_of_nonneg _ (by norm_num)]
      norm_num
    rw [h]
    decide

/-- Claim C3 (amended): xy is computed from the SOURCE raster dimensions
(not from the resized element): `x_space = Bw - source.width` and
`y_space = Bh - source.height`, combined per axis from 0, space/2
(truncated toward zero) and space, for each of the nine anchor names; an
unrecognized anchor name fails; an explicit pair is used verbatim without
clamping; a 100 by 100 source in a 500 by 500 container yields (200, 200)
for center-center, (0, 0) for top-left and (400, 400) for bottom-right. -/
theorem claim3_amended :
    (∀ (b : ImageBlockState) (p : ℤ × ℤ), b.position = Position.coords p →
      ImageBlock.xy b = some p)
    ∧ (∀ (b : ImageBlockState) (s : String), b.position = Position.anchor s →
      s ∉ anchorNames → ImageBlock.xy b = none)
    ∧ (∀ b : ImageBlockState, b.position = Position.anchor "top-left" →
      ImageBlock.xy b = some (0, 0))
    ∧ (∀ b : ImageBlockState, b.position = Position.anchor "top-center" →
      ImageBlock.xy b = some (pytrunc (((b.size.1 - b.image.1 : ℤ) : ℚ) / 2), 0))
    ∧ (∀ b : ImageBlockState, b.position = Position.anchor "top-right" →
      ImageBlock.xy b = some (b.size.1 - b.image.1, 0))
    ∧ (∀ b : ImageBlockState, b.position = Position.anchor "center-left" →
      ImageBlock.xy b = some (0, pytrunc (((b.size.2 - b.image.2 : ℤ) : ℚ) / 2)))
    ∧ (∀ b : ImageBlockState, b.position = Position.anchor "center-center" →
      ImageBlock.xy b = some (pytrunc (((b.size.1 - b.image.1 : ℤ) : ℚ) / 2),
        pytrunc (((b.size.2 - b.image.2 : ℤ) : ℚ) / 2)))
    ∧ (∀ b : ImageBlockState, b.position = Position.anchor "center-right" →
      ImageBlock.xy b = some (b.size.1 - b.image.1,
        pytrunc (((b.size.2 - b.image.2 : ℤ) : ℚ) / 2)))
    ∧ (∀ b : ImageBlockState, b.position = Position.anchor "bottom-left" →
      ImageBlock.xy b = some (0, b.size.2 - b.image.2))
    ∧ (∀ b : ImageBlockState, b.position = Position.anchor "bottom-center" →
      ImageBlock.xy b = some (pytrunc (((b.size.1 - b.image.1 : ℤ) : ℚ) / 2),
        b.size.2 - b.image.2))
    ∧ (∀ b : ImageBlockState, b.position = Position.anchor "bottom-right" →
      ImageBlock.xy b = some (b.size.1 - b.image.1, b.size.2 - b.image.2))
    ∧ ImageBlock.xy ⟨(100, 100), (500, 500), Position.anchor "center-center", true, true⟩
        = some (200, 200)
    ∧ ImageBlock.xy ⟨(100, 100), (500, 500), Position.anchor "top-left", true, true⟩
        = some (0, 0)
    ∧ ImageBlock.xy ⟨(100, 100), (500, 500), Position.anchor "bottom-right", true, true⟩
        = some (400, 400) := by
  refine ⟨xy_coords, xy_unknown_anchor, xy_top_left, xy_top_center, xy_top_right,
    xy_center_left, xy_center_center, xy_center_right, xy_bottom_left,
    xy_bottom_center, xy_bottom_right, ?_, ?_, ?_⟩
  · rw [xy_center_center _ rfl]
    norm_num [pytrunc]
  · exact xy_top_left _ rfl
  · rw [xy_bottom_right _ rfl]
    decide

/-- Claim C3, witness: the amended statement applied to a block whose
position is the unrecognized anchor name "middle", and to the concrete
100 by 100 source centered in a 500 by 500 block. -/
theorem claim3_witness :
    ImageBlock.xy ⟨(100, 100), (500, 500), Position.anchor "middle", true, true⟩ = none
    ∧ ImageBlock.xy ⟨(100, 100), (500, 500), Position.anchor "center-center", true, true⟩
        = some (200, 200) :=
  ⟨claim3_amended.2.1 _ "middle" rfl (by decide), claim3_amended.2.2.2.2.2.2.2.2.2.2.2.1⟩

/-- Claim C10: the width setter keeps `size == (width, height)`, but the
height setter writes the new height into slot 0 of the size tuple: after
assigning height 300 on a 500 by 500 block, size is (300, 500) while
(width, height) is (500, 300), so the claimed invariant fails. -/
theorem claim10_height_updates_wrong_slot :
    (Block.setWidth (Block.init (500, 500)) 300).size
        = ((Block.setWidth (Block.init (500, 500)) 300).width,
           (Block.setWidth (Block.init (500, 500)) 300).height)
    ∧ (Block.setHeight (Block.init (500, 500)) 300).size = (300, 500)
    ∧ (Block.setHeight (Block.init (500, 500)) 300).width = 500
    ∧ (Block.setHeight (Block.init (500, 500)) 300).height = 300
    ∧ (Block.setHeight (Block.init (500, 500)) 300).size
        ≠ ((Block.setHeight (Block.init (500, 500)) 300).width,
           (Block.setHeight (Block.init (500, 500)) 300).height) := by
  refine ⟨rfl, rfl, rfl, rfl, by decide⟩

end Geepillow

namespace Geepillow

/-! ### blocks.py: TextBlock

The TextBlock renders its text to a raster through the font collaborator.
A rendered raster is identified here by the inputs the source passes to the
drawing call: the text, the font handle and the text color; the pixel
rendering itself is the excluded font-provider collaborator. -/

/-- A font handle: a typeface identity plus a point size. -/
structure TBFont where
  id : ℕ
  size : ℤ
deriving DecidableEq, Repr

/-- `fonts.create` applied to an already-loaded font handle: reload the same
typeface at the requested size when the sizes differ, else return the font
unchanged. -/
def fontsCreate (font : TBFont) (size : ℤ) : TBFont :=
  if font.size ≠ size then { font with size := size } else font

/-- A rendered text raster, identified by its generating inputs. -/
structure TextRaster where
  text : String
  font : TBFont
  color : ℕ
deriving DecidableEq, Repr

/-- `TextBlock.create_text_image`: draw the current text with the current
font and text color onto a fresh canvas. -/
def create_text_image (text : String) (font : TBFont) (color : ℕ) : TextRaster :=
  ⟨text, font, color⟩

/-- The TextBlock state the claim reads: the stored text, text color,
font size, font handle, and the stored source raster `_image`. -/
structure TextBlockState where
  text : String
  text_color : ℕ
  font_size : ℤ
  font : TBFont
  image : TextRaster
deriving DecidableEq, Repr

/-- `TextBlock.__init__`: store the inputs, create the font at the given
font size, and render the source raster once via `create_text_image`. -/
def TextBlock.init (text : String) (font : TBFont) (font_size : ℤ) (color : ℕ) :
    TextBlockState :=
  let f := fontsCreate font font_size
  { text := text, text_color := color, font_size := font_size, font := f,
    image := create_text_image text f color }

/-- The `font` setter: take the font size from the assigned font, recreate
the font handle — and leave the stored source raster `_image` untouched. -/
def TextBlock.setFont (b : TextBlockState) (font : TBFont) : TextBlockState :=
  { b with font_size := font.size, font := fontsCreate font font.size }

/-- Claim C4: assigning a new font updates the stored font and font size but
does not regenerate the source raster, which still carries the construction
font; subsequent element and image accesses derive from that stale raster,
so they do not reflect the new font as the claim states. -/
theorem claim4_font_set_keeps_old_raster :
    (TextBlock.setFont (TextBlock.init "title" ⟨0, 12⟩ 12 0) ⟨1, 24⟩).font = ⟨1, 24⟩
    ∧ (TextBlock.setFont (TextBlock.init "title" ⟨0, 12⟩ 12 0) ⟨1, 24⟩).font_size = 24
    ∧ (TextBlock.setFont (TextBlock.init "title" ⟨0, 12⟩ 12 0) ⟨1, 24⟩).image
        = create_text_image "title" ⟨0, 12⟩ 0
    ∧ (TextBlock.setFont (TextBlock.init "title" ⟨0, 12⟩ 12 0) ⟨1, 24⟩).image
        ≠ create_text_image
            (TextBlock.setFont (TextBlock.init "title" ⟨0, 12⟩ 12 0) ⟨1, 24⟩).text
            (TextBlock.setFont (TextBlock.init "title" ⟨0, 12⟩ 12 0) ⟨1, 24⟩).font
            (TextBlock.setFont (TextBlock.init "title" ⟨0, 12⟩ 12 0) ⟨1, 24⟩).text_color := by
  refine ⟨by decide, by decide, by decide, by decide⟩

end Geepillow

namespace Geepillow

/-! ### blocks.py: RowBlock -/

/-- A child of a container, reduced to the geometry the container reads. -/
structure ChildBlock where
  width : ℤ
  height : ℤ
deriving DecidableEq, Repr

/-- A RowBlock: the stored child list (null entries allowed) and the
horizontal gap. -/
structure RowBlockState where
  blocklist : List (Option ChildBlock)
  x_space : ℤ
deriving DecidableEq, Repr

/-- `RowBlock.height`: `max` of the heights of the non-null children;
Python `max` raises on an empty sequence, modelled as `none`. -/
def RowBlock.height (r : RowBlockState) : Option ℤ :=
  ((r.blocklist.filterMap id).map ChildBlock.height).max?

/-- `RowBlock.final_blocklist`: replace each null entry by the proxy block,
whose size has been set to (row height, row height). -/
def RowBlock.final_blocklist (r : RowBlockState) : Option (List ChildBlock) := do
  let h ← RowBlock.height r
  pure (r.blocklist.map (fun ob => ob.getD ⟨h, h⟩))

/-- `RowBlock.width`: sum of the widths of the effective children plus
`(len(blocklist) - 1) * x_space`. -/
def RowBlock.width (r : RowBlockState) : Option ℤ := do
  let bl ← RowBlock.final_blocklist r
  pure ((bl.map ChildBlock.width).sum + ((r.blocklist.length : ℤ) - 1) * r.x_space)

/-- `RowBlock.size`: the pair (width, height). -/
def RowBlock.size (r : RowBlockState) : Option (ℤ × ℤ) := do
  let w ← RowBlock.width r
  let h ← RowBlock.height r
  pure (w, h)

lemma filterMap_id_map_some {α : Type} (l : List α) : (l.map some).filterMap id = l := by
  induction l with
  | nil => rfl
  | cons a t ih => simp [ih]

lemma map_getD_map_some (l : List ChildBlock) (d : ChildBlock) :
    l.map ((fun ob => ob.getD d) ∘ some) = l := by
  induction l with
  | nil => rfl
  | cons a t ih => simp [ih]

/-- Claim C8: a horizontal strip of children 100, 200 and 150 wide, all 100
high, with gap 10, has size (470, 100); in general, for a row of non-null
children the width is the sum of the child widths plus gap times (n - 1)
and the height is the maximum child height. -/
theorem claim8_row_size :
    RowBlock.size ⟨[some ⟨100, 100⟩, some ⟨200, 100⟩, some ⟨150, 100⟩], 10⟩ = some (470, 100)
    ∧ ∀ (r : RowBlockState) (bs : List ChildBlock) (h : ℤ),
        r.blocklist = bs.map some →
        (bs.map ChildBlock.height).max? = some h →
        RowBlock.size r
          = some ((bs.map ChildBlock.width).sum + ((bs.length : ℤ) - 1) * r.x_space, h) := by
  constructor
  · decide
  · intro r bs h hbl hmax
    have h1 : RowBlock.height r = some h := by
      rw [RowBlock.height, hbl, filterMap_id_map_some, hmax]
    have h2 : RowBlock.final_blocklist r = some bs := by
      rw [RowBlock.final_blocklist, h1]
      simp [hbl, map_getD_map_some]
    rw [RowBlock.size, RowBlock.width, h2]
    simp [h1, hbl]

/-- Claim C8, witness: the general row-size formula applied to the three
concrete children of the claim. -/
theorem claim8_witness :
    RowBlock.size ⟨[some ⟨100, 100⟩, some ⟨200, 100⟩, some ⟨150, 100⟩], 10⟩
      = some (470, 100) := by
  have h := claim8_row_size.2 ⟨[some ⟨100, 100⟩, some ⟨200, 100⟩, some ⟨150, 100⟩], 10⟩
    [⟨100, 100⟩, ⟨200, 100⟩, ⟨150, 100⟩] 100 rfl (by decide)
  exact h.trans (by decide)

end Geepillow

namespace Geepillow

/-! ### grids.py: Grid

The `blocks` property of the Grid traverses the stored rows, emits a
non-fatal warning when a child has a different pixel mode, and returns the
rows unchanged; the geometry below therefore reads the stored rows
directly. -/

/-- A Grid: the stored rows of optional children and the two gaps. -/
structure GridState where
  blocks : List (List (Option ChildBlock))
  x_space : ℤ
  y_space : ℤ
deriving DecidableEq, Repr

/-- `Grid.row_height`: `max` of the heights of the non-null children of row
`n`; indexing errors and `max` on an empty sequence are modelled as
`none`. -/
def Grid.row_height (g : GridState) (n : ℕ) : Option ℤ := do
  let row ← g.blocks.get? n
  ((row.filterMap id).map ChildBlock.height).max?

/-- `Grid.column_width`: `max` of the widths of the non-null entries at
index `n` of every row long enough to have one. -/
def Grid.column_width (g : GridState) (n : ℕ) : Option ℤ :=
  (((g.blocks.filterMap (fun row => row.get? n)).filterMap id).map ChildBlock.width).max?

/-- `Grid.grid_size`: height is the sum over all rows of
`row_height(i) + y_space`; the column count is the longest row; width is
the sum over all columns of `column_width(i) + x_space`. -/
def Grid.grid_size (g : GridState) : Option (ℤ × ℤ) := do
  let hs ← (List.range g.blocks.length).mapM (fun i => Grid.row_height g i)
  let height := (hs.map (fun x => x + g.y_space)).sum
  let ncols ← (g.blocks.map (fun r => (r.length : ℤ))).max?
  let ws ← (List.range ncols.toNat).mapM (fun i => Grid.column_width g i)
  let width := (ws.map (fun x => x + g.x_space)).sum
  pure (width, height)

lemma sum_map_add_const (l : List ℤ) (c : ℤ) :
    (l.map (fun x => x + c)).sum = l.sum + (l.length : ℤ) * c := by
  induction l with
  | nil => simp
  | cons a t ih =>
    simp [ih]
    ring

lemma grid_size_eq (g : GridState) (hs : List ℤ) (ncols : ℤ) (ws : List ℤ)
    (h1 : (List.range g.blocks.length).mapM (fun i => Grid.row_height g i) = some hs)
    (h2 : (g.blocks.map (fun r => (r.length : ℤ))).max? = some ncols)
    (h3 : (List.range ncols.toNat).mapM (fun i => Grid.column_width g i) = some ws) :
    Grid.grid_size g = some (ws.sum + (ws.length : ℤ) * g.x_space,
      hs.sum + (hs.length : ℤ) * g.y_space) := by
  rw [Grid.grid_size, h1]
  simp only [Option.bind_eq_bind, Option.some_bind]
  rw [h2]
  simp only [Option.bind_eq_bind, Option.some_bind]
  rw [h3]
  simp [sum_map_add_const]

/-- The grid of the claim: row 0 holds A (100 by 50) and B (200 by 80),
row 1 holds C (150 by 60). -/
def gridExample (xs ys : ℤ) : GridState :=
  ⟨[[some ⟨100, 50⟩, some ⟨200, 80⟩], [some ⟨150, 60⟩]], xs, ys⟩

/-- Claim C5, counterexample: with both gaps at 10 the code computes grid
size (370, 160) — one gap after every column and every row — not the
(150 + 200 + 10, 80 + 60 + 10) = (360, 150) the claim states with
gap times (n - 1). -/
theorem claim5_counterexample :
    Grid.grid_size (gridExample 10 10) = some (370, 160)
    ∧ ((370 : ℤ), (160 : ℤ)) ≠ (150 + 200 + 10, 80 + 60 + 10) := by
  refine ⟨by decide, by decide⟩

/-- Claim C5 (amended): for the example grid, column_width(0) = 150,
column_width(1) = 200, row_height(0) = 80, row_height(1) = 60, and the
total size is (150 + 200 + 2 x_space, 80 + 60 + 2 y_space); in general
the total size is the sum of the column widths plus x_space times
n_columns by the sum of the row heights plus y_space times n_rows — the
code adds one gap per column and per row, not n - 1. -/
theorem claim5_amended :
    (∀ xs ys : ℤ,
      Grid.column_width (gridExample xs ys) 0 = some 150
      ∧ Grid.column_width (gridExample xs ys) 1 = some 200
      ∧ Grid.row_height (gridExample xs ys) 0 = some 80
      ∧ Grid.row_height (gridExample xs ys) 1 = some 60
      ∧ Grid.grid_size (gridExample xs ys) = some (150 + 200 + 2 * xs, 80 + 60 + 2 * ys))
    ∧ ∀ (g : GridState) (hs : List ℤ) (ncols : ℤ) (ws : List ℤ),
        (List.range g.blocks.length).mapM (fun i => Grid.row_height g i) = some hs →
        (g.blocks.map (fun r => (r.length : ℤ))).max? = some ncols →
        (List.range ncols.toNat).mapM (fun i => Grid.column_width g i) = some ws →
        Grid.grid_size g = some (ws.sum + (ws.length : ℤ) * g.x_space,
          hs.sum + (hs.length : ℤ) * g.y_space) := by
  constructor
  · intro xs ys
    refine ⟨rfl, rfl, rfl, rfl, ?_⟩
    have h := grid_size_eq (gridExample xs ys) [80, 60] 2 [150, 200] rfl rfl rfl
    rw [h]
    simp only [gridExample]
    norm_num
  · exact grid_size_eq

/-- Claim C5, witness: the general grid-size formula applied to the example
grid with both gaps at 10. -/
theorem claim5_witness :
    Grid.grid_size (gridExample 10 10) = some (370, 160) := by
  have h := claim5_amended.2 (gridExample 10 10) [80, 60] 2 [150, 200] rfl rfl rfl
  exact h.trans (by decide)

end Geepillow

namespace Geepillow

/-! ### strips.py: Strip -/

/-- A child of a Strip: its pixel mode and its geometry. -/
structure SBlock where
  mode : String
  width : ℤ
  height : ℤ
deriving DecidableEq, Repr

/-- Error raised by the Strip mode check. -/
inductive StripError where
  | inconsistentMode
deriving DecidableEq, Repr

/-- A Strip: the stored children (null entries allowed), the strip mode,
the inter-child gap and the proxy block substituted for null entries. -/
structure StripState where
  children : List (Option SBlock)
  mode : String
  space : ℤ
  proxy : SBlock
deriving DecidableEq, Repr

/-- Modelled from the spec: the Strip container class of the strips module
that the tests and the eeblocks module import is not among the sources
here (the present strips module holds only the older SimpleStrip and
ImageStrip revisions, none of which is the Strip the spec describes).
Per the spec, the effective `blocks` list of a Strip replaces null entries
by a proxy block and requires every non-null entry to share `mode` with
the strip, failing hard with `InconsistentMode` otherwise.  This function
checks one entry. -/
def Strip.checkBlock (st : StripState) (ob : Option SBlock) : Except StripError SBlock :=
  match ob with
  | none => .ok st.proxy
  | some b => if b.mode = st.mode then .ok b else .error .inconsistentMode

/-- Modelled from the spec: traversal of the stored children in order,
stopping at the first mode mismatch. -/
def stripCheckList (st : StripState) : List (Option SBlock) → Except StripError (List SBlock)
  | [] => .ok []
  | ob :: rest =>
    match Strip.checkBlock st ob with
    | .error e => .error e
    | .ok b =>
      match stripCheckList st rest with
      | .error e => .error e
      | .ok bs => .ok (b :: bs)

/-- Modelled from the spec: the effective `blocks` list of a Strip. -/
def Strip.blocks (st : StripState) : Except StripError (List SBlock) :=
  stripCheckList st st.children

lemma stripCheckList_error_of_mem (st : StripState) (l : List (Option SBlock)) (b : SBlock)
    (hb : some b ∈ l) (hm : b.mode ≠ st.mode) :
    stripCheckList st l = .error .inconsistentMode := by
  induction l with
  | nil => cases hb
  | cons a t ih =>
    rcases List.mem_cons.mp hb with h | h
    · subst h
      simp [stripCheckList, Strip.checkBlock, hm]
    · cases ha : Strip.checkBlock st a with
      | error e =>
        cases e
        simp [stripCheckList, ha]
      | ok v =>
        simp [stripCheckList, ha, ih h]

/-- Claim C7: a Strip whose children mix a block in RGBA mode with a block
in RGB mode fails with InconsistentMode when its effective blocks list is
computed — whatever the mode of the strip itself, one of the two children
must differ from it. -/
theorem claim7_strip_mixed_modes :
    (∀ (st : StripState) (b1 b2 : SBlock), some b1 ∈ st.children → some b2 ∈ st.children →
      b1.mode = "RGBA" → b2.mode = "RGB" →
      Strip.blocks st = .error .inconsistentMode)
    ∧ Strip.blocks ⟨[some ⟨"RGBA", 100, 100⟩, some ⟨"RGB", 100, 100⟩], "RGBA", 10,
        ⟨"RGBA", 0, 0⟩⟩ = .error .inconsistentMode := by
  constructor
  · intro st b1 b2 h1 h2 hm1 hm2
    rw [Strip.blocks]
    by_cases hs : st.mode = "RGBA"
    · refine stripCheckList_error_of_mem st st.children b2 h2 ?_
      rw [hm2, hs]
      decide
    · refine stripCheckList_error_of_mem st st.children b1 h1 ?_
      rw [hm1]
      exact fun h => hs h.symm
  · rfl

/-- Claim C7, witness: the general statement applied to a concrete strip in
RGBA mode holding one RGBA child and one RGB child. -/
theorem claim7_witness :
    Strip.blocks ⟨[some ⟨"RGBA", 100, 100⟩, some ⟨"RGB", 100, 100⟩], "RGBA", 10,
      ⟨"RGBA", 0, 0⟩⟩ = .error .inconsistentMode :=
  claim7_strip_mixed_modes.1 _ ⟨"RGBA", 100, 100⟩ ⟨"RGB", 100, 100⟩
    (by simp) (by simp) rfl rfl

end Geepillow
